import Mathlib

/-!
# Backend_Video_Stream — user controller, shallow embedding

A shallow embedding of `src/controllers/user.controller.js` (the full
controller module: `generateAccessAndRefreshTokens`, `registerUser`,
`loginUser`, `logoutUser`, `refreshAccessToken`) together with the parts of
its collaborators the handlers observe.  Request bodies are records of
`Option String` fields (`none` models a JavaScript `undefined`), the user
store is a list of documents, and each handler is a pure function from an
environment, a store and a request to a result paired with the new store.

Collaborators that are not part of the repository's sources (the mongoose
user model's hashing and token methods, `uploadOnCloudinary`,
`ApiResponse.success`) are modelled from the spec and marked as such in
their doc comments.
-/

namespace VideoStream

/-- JavaScript `String.prototype.trim()`: strip leading and trailing
whitespace. -/
def jsTrim (s : String) : String :=
  ⟨((s.data.dropWhile Char.isWhitespace).reverse.dropWhile Char.isWhitespace).reverse⟩

/-- JavaScript `String.prototype.toLowerCase()`: lowercase every
character. -/
def jsToLower (s : String) : String :=
  ⟨s.data.map Char.toLower⟩

/-- JavaScript truthiness of an optional string value: `undefined` and the
empty string are falsy, every other string is truthy. -/
def truthy : Option String → Bool
  | none => false
  | some s => !(s == "")

/-- JavaScript `a || b` on optional string values: the left operand when it
is truthy, otherwise the right operand. -/
def jsOr (a b : Option String) : Option String :=
  if truthy a then a else b

/-- A JSON-like value, enough to express the response bodies the handlers
build: string leaves, object nodes, and `null`. -/
inductive Json where
  | str (s : String)
  | obj (fields : List (String × Json))
  | null

/-- The keys of a JSON object (empty for non-objects). -/
def Json.keys : Json → List String
  | .obj fields => fields.map Prod.fst
  | _ => []

/-- A persisted user document, after the mongoose user schema: `_id`,
credentials, profile fields, and the optional currently-active refresh
token (`none` models an unset/removed field). The `password` field holds
the stored (hashed) password. -/
structure StoredUser where
  id : Nat
  username : String
  email : String
  fullName : String
  password : String
  avatar : String
  coverImage : String
  refreshToken : Option String
deriving DecidableEq

/-- The user store: the collection of user documents. -/
abbrev UserDb := List StoredUser

/-- `User.findById`: the first document with the given `_id`. -/
def findById (db : UserDb) (userId : Nat) : Option StoredUser :=
  db.find? (fun u => u.id == userId)

/-- `User.findOne` with filter `$or: [ condUsername, condEmail ]`, as used by
`registerUser` and `loginUser`: the first document whose `username` equals
the submitted username or whose `email` equals the submitted email.
A `none` submission never matches (mongoose drops `undefined` values when
casting the query filter). -/
def findOneByUsernameOrEmail (db : UserDb) (username email : Option String) :
    Option StoredUser :=
  db.find? (fun u => username == some u.username || email == some u.email)

/-- The serialisation of a user document into response JSON fields, before
any `.select` projection. -/
def userFields (u : StoredUser) : List (String × Json) :=
  [("_id", .str (toString u.id)),
   ("username", .str u.username),
   ("email", .str u.email),
   ("fullName", .str u.fullName),
   ("avatar", .str u.avatar),
   ("coverImage", .str u.coverImage),
   ("password", .str u.password)] ++
  (match u.refreshToken with
   | some t => [("refreshToken", .str t)]
   | none => [])

/-- `.select("-k1 -k2 ...")`: drop the excluded keys from the document's
serialised fields. -/
def selectFields (excluded : List String) (fields : List (String × Json)) :
    List (String × Json) :=
  fields.filter (fun kv => !(excluded.contains kv.fst))

/-- The `ApiError` thrown by the handlers: an HTTP status code and a
message. -/
structure ApiError where
  statusCode : Nat
  message : String
deriving DecidableEq

/-- The uniform response envelope built by `new ApiResponse(statusCode,
data, message)`. Modelled from the spec: the envelope is `{status-code,
data, message, success-flag}` with success iff the status code is below
400 (`utils/apiResponse.js` is not among the sources). -/
structure ApiResponse where
  statusCode : Nat
  data : Json
  message : String
  success : Bool

/-- Build an `ApiResponse`, deriving the success flag from the status
code. -/
def mkApiResponse (statusCode : Nat) (data : Json) (message : String) :
    ApiResponse :=
  { statusCode := statusCode, data := data, message := message,
    success := statusCode < 400 }

/-- What a handler sends on its non-throwing path: the HTTP status set via
`res.status`, the cookies set and cleared on the response, and the JSON
envelope. -/
structure HttpResponse where
  status : Nat
  setCookies : List (String × String)
  clearedCookies : List String
  body : ApiResponse

/-- The observable outcome of running one handler: a response, a thrown
`ApiError` (funnelled by the `asyncHandler` wrapper into the error
envelope), or a non-`ApiError` runtime exception (a `TypeError` or similar
escaping the handler). -/
inductive HandlerResult where
  | success (r : HttpResponse)
  | thrown (e : ApiError)
  | crashed (msg : String)

/-- The keys of the `data` object of a successful response (empty for
thrown errors and crashes). -/
def responseDataKeys : HandlerResult → List String
  | .success r => r.body.data.keys
  | _ => []

/-- The repository-external capabilities the handlers call. Modelled from
the spec, which lists the collaborators as a credential verifier/hasher, a
media-upload service `upload(localFilePath) → url-or-failure`, and a token
signer; the corresponding source files (`models/user.model.js`,
`utils/cloudinary.js`) are not among the sources. -/
structure Env where
  hash : String → String
  upload : String → Option String
  genAccessToken : StoredUser → String
  genRefreshToken : StoredUser → String

/-- `uploadOnCloudinary` on a possibly-absent local path. Modelled from the
spec: the upload collaborator returns a URL or fails; on an absent path it
fails (the utility guards on a missing path). -/
def uploadOnCloudinary (env : Env) : Option String → Option String
  | none => none
  | some p => env.upload p

/-- `user.isPasswordCorrect(password)`. Modelled from the spec: the stored
password is the hash of the plaintext; comparison hashes the candidate and
compares. An absent candidate never matches. -/
def isPasswordCorrect (env : Env) (u : StoredUser) : Option String → Bool
  | none => false
  | some p => env.hash p == u.password

/-- `generateAccessAndRefreshTokens(userId)` (user.controller.js, lines
185–204): look the user up by id, mint an access and a refresh token,
store the refresh token on the user document and save it.  Any exception
in the `try` (here: `user` being `null` when the id is unknown, so that
`user.generateAccessToken()` throws) is caught and rethrown as an
`ApiError` 500. -/
def generateAccessAndRefreshTokens (env : Env) (db : UserDb) (userId : Nat) :
    Except ApiError ((String × String) × UserDb) :=
  match findById db userId with
  | none =>
      .error ⟨500, "Something went wrong while generating refresh and access token"⟩
  | some u =>
      let accessToken := env.genAccessToken u
      let refreshToken := env.genRefreshToken u
      let db' := db.map (fun w =>
        if w.id == userId then { w with refreshToken := some refreshToken } else w)
      .ok ((accessToken, refreshToken), db')

/-- The body of a registration request; `none` models an absent field. -/
structure RegisterBody where
  fullName : Option String
  email : Option String
  username : Option String
  password : Option String

/-- One uploaded file as multer presents it (only the `path` is read). -/
structure UploadedFile where
  path : String

/-- `req.files` as populated by `upload.fields([avatar, coverImage])`:
each key is absent or holds the array of files uploaded under it.  The
outer `Option` models `req.files` itself being `undefined`. -/
structure RegisterFiles where
  avatar : Option (List UploadedFile)
  coverImage : Option (List UploadedFile)

/-- The result of evaluating the expression `req.files?.avatar[0]?.path`
(line 228): either a JavaScript `TypeError` — when `req.files` is an
object but has no `avatar` key, `avatar[0]` reads index 0 of `undefined` —
or the resulting value. -/
inductive AvatarPathEval where
  | crash
  | val (p : Option String)

/-- Evaluate `req.files?.avatar[0]?.path` (line 228). -/
def avatarLocalPath : Option RegisterFiles → AvatarPathEval
  | none => .val none
  | some fs =>
      match fs.avatar with
      | none => .crash
      | some l => .val ((l.get? 0).map (fun f => f.path))

/-- Evaluate lines 230–237: `coverImageLocalPath` is set only when
`req.files` exists and `req.files.coverImage` is a non-empty array. -/
def coverImageLocalPath : Option RegisterFiles → Option String
  | none => none
  | some fs =>
      match fs.coverImage with
      | none => none
      | some l => (l.get? 0).map (fun f => f.path)

/-- The non-blank validation of `registerUser` on one field (line 213):
`field?.trim() === ""` — an absent field short-circuits to `undefined`,
which is not `""`, so only a present field whose trim is empty counts as
blank. -/
def isBlank : Option String → Bool
  | none => false
  | some s => jsTrim s == ""

/-- Lines 212–214: `[fullName, email, username, password].some(field =>
field?.trim() === "")`. -/
def hasBlankField (b : RegisterBody) : Bool :=
  [b.fullName, b.email, b.username, b.password].any isBlank

/-- Lines 252–274 of `registerUser`: create the user document (crashing
with a `TypeError` when `username` is absent, since `username.toLowerCase()`
dereferences `undefined`), re-fetch it with password and refresh token
deselected, and answer 201.  Creation with another required field absent
fails the schema's required-validation (modelled from the spec: all four
fields are required by the user model, which is not among the sources). -/
def registerCreate (env : Env) (db : UserDb) (body : RegisterBody)
    (avatarUrl coverUrl : String) : HandlerResult × UserDb :=
  match body.username with
  | none => (.crashed "TypeError: Cannot read properties of undefined", db)
  | some v =>
      match body.fullName, body.email, body.password with
      | some fn, some em, some pw =>
          let newUser : StoredUser :=
            { id := db.length + 1, username := jsToLower v, email := em,
              fullName := fn, password := env.hash pw, avatar := avatarUrl,
              coverImage := coverUrl, refreshToken := none }
          let db' := db ++ [newUser]
          match findById db' newUser.id with
          | none => (.thrown ⟨500, "Something went wrong while user registration!"⟩, db')
          | some created =>
              (.success
                { status := 201, setCookies := [], clearedCookies := [],
                  body := mkApiResponse 200
                    (.obj (selectFields ["password", "refreshToken"] (userFields created)))
                    "User registered Successfully!!!" }, db')
      | _, _, _ => (.crashed "ValidationError: required field missing", db)

/-- Lines 244–249 of `registerUser`: upload the avatar and the cover image
to the media store; a failed avatar upload is rejected as 400, and the
cover-image URL defaults to `""` (`coverImage?.url || ""`). -/
def registerUploads (env : Env) (db : UserDb) (body : RegisterBody)
    (avatarPath : String) (coverPath : Option String) : HandlerResult × UserDb :=
  match env.upload avatarPath with
  | none => (.thrown ⟨400, "Avatar file is required"⟩, db)
  | some avatarUrl =>
      registerCreate env db body avatarUrl ((uploadOnCloudinary env coverPath).getD "")

/-- Lines 219–274 of `registerUser`: everything after the non-blank
validation — the duplicate lookup, the file checks, uploads and
creation. -/
def registerAfterValidation (env : Env) (db : UserDb) (body : RegisterBody)
    (files : Option RegisterFiles) : HandlerResult × UserDb :=
  match findOneByUsernameOrEmail db body.username body.email with
  | some _ => (.thrown ⟨409, "User with email or username already exists"⟩, db)
  | none =>
      match avatarLocalPath files with
      | .crash => (.crashed "TypeError: Cannot read properties of undefined", db)
      | .val none => (.thrown ⟨400, "Avatar file is required"⟩, db)
      | .val (some p) => registerUploads env db body p (coverImageLocalPath files)

/-- `registerUser` (user.controller.js, lines 206–275). -/
def registerUser (env : Env) (db : UserDb) (body : RegisterBody)
    (files : Option RegisterFiles) : HandlerResult × UserDb :=
  if hasBlankField body then (.thrown ⟨400, "All fields are required"⟩, db)
  else registerAfterValidation env db body files

/-- The body of a login request; `none` models an absent field. -/
structure LoginBody where
  email : Option String
  username : Option String
  password : Option String

/-- `loginUser` (user.controller.js, lines 277–332).  Note the presence
check on line 282 is `if (!username || !email)`: it throws unless BOTH
identifiers are present (truthy). -/
def loginUser (env : Env) (db : UserDb) (body : LoginBody) :
    HandlerResult × UserDb :=
  if !truthy body.username || !truthy body.email then
    (.thrown ⟨400, "username or email is required"⟩, db)
  else
    match findOneByUsernameOrEmail db body.username body.email with
    | none => (.thrown ⟨404, "User does not exist"⟩, db)
    | some user =>
        if !isPasswordCorrect env user body.password then
          (.thrown ⟨401, "Password invalid"⟩, db)
        else
          match generateAccessAndRefreshTokens env db user.id with
          | .error e => (.thrown e, db)
          | .ok ((accessToken, refreshToken), db') =>
              let loggedInUser : Json :=
                match findById db' user.id with
                | none => .null
                | some u => .obj (selectFields ["password", "refreshToken"] (userFields u))
              (.success
                { status := 200,
                  setCookies := [("accessToken", accessToken), ("refreshToken", refreshToken)],
                  clearedCookies := [],
                  body := mkApiResponse 200
                    (.obj [("user", loggedInUser),
                           ("accessToken", .str accessToken),
                           ("refreshToken", .str refreshToken)])
                    "User logged In Successfully" }, db')

/-- `logoutUser` (user.controller.js, lines 334–361): `$unset` the
`refreshToken` field of the authenticated user's document, then clear
both cookies and answer 200 with an empty data object. -/
def logoutUser (db : UserDb) (userId : Nat) : HandlerResult × UserDb :=
  let db' := db.map (fun u =>
    if u.id == userId then { u with refreshToken := none } else u)
  (.success
    { status := 200, setCookies := [],
      clearedCookies := ["accessToken", "refreshToken"],
      body := mkApiResponse 200 (.obj []) "User logged Out" }, db')

/-- `refreshAccessToken` (user.controller.js, lines 363–421).  The token is
read as `req.cookies.refreshToken || req.body.refreshToken` (line 367).
Line 370 is `if (incomingRefreshToken) throw new ApiError(401,
"Unauthorized request")`: the handler throws exactly when a token IS
presented.  When no token is presented, the `try` block's first statement
`jwt.verify(...)` (line 378) raises `ReferenceError: jwt is not defined` —
the module never imports `jwt` — and the `catch` (lines 418–420) rethrows
it as `ApiError(401, error.message)`.  Every request therefore answers 401
and the store is never touched; lines 383–417 are unreachable. -/
def refreshAccessToken (db : UserDb) (cookieToken bodyToken : Option String) :
    HandlerResult × UserDb :=
  let incomingRefreshToken := jsOr cookieToken bodyToken
  if truthy incomingRefreshToken then
    (.thrown ⟨401, "Unauthorized request"⟩, db)
  else
    (.thrown ⟨401, "jwt is not defined"⟩, db)

/-! ## Helper lemmas -/

/-- A key listed in the exclusion of a `.select` never appears among the
projected fields. -/
theorem not_mem_selectFields (excluded : List String)
    (fs : List (String × Json)) (k : String) (hk : k ∈ excluded) :
    k ∉ (selectFields excluded fs).map Prod.fst := by
  intro hmem
  rcases List.mem_map.mp hmem with ⟨kv, hkv, hfst⟩
  have h2 := (List.mem_filter.mp hkv).2
  rw [hfst] at h2
  simp at h2
  exact h2 hk

/-- Everything after the non-blank validation of `registerUser` can fail
in several ways, but never with the validation's own error. -/
theorem registerAfterValidation_ne_blank_error
    (env : Env) (db : UserDb) (body : RegisterBody)
    (files : Option RegisterFiles) :
    (registerAfterValidation env db body files).1 ≠
      .thrown ⟨400, "All fields are required"⟩ := by
  unfold registerAfterValidation registerUploads registerCreate
  dsimp only
  repeat' split
  all_goals intro h
  all_goals simp_all

/-- When the duplicate lookup of `registerUser` misses, the handler never
answers 409. -/
theorem registerAfterValidation_ne_conflict_of_find_none
    (env : Env) (db : UserDb) (body : RegisterBody)
    (files : Option RegisterFiles)
    (hfind : findOneByUsernameOrEmail db body.username body.email = none) :
    (registerAfterValidation env db body files).1 ≠
      .thrown ⟨409, "User with email or username already exists"⟩ := by
  unfold registerAfterValidation registerUploads registerCreate
  dsimp only
  repeat' split
  all_goals intro h
  all_goals simp_all

/-- Every document of the store left behind by the
post-validation part of `registerUser` either was already stored or is
the newly created record, which carries the lowercased submitted
username. -/
theorem registerAfterValidation_new_users_lowercased
    (env : Env) (db : UserDb) (body : RegisterBody)
    (files : Option RegisterFiles) :
    ∀ u' ∈ (registerAfterValidation env db body files).2,
      u' ∈ db ∨ ∃ s, body.username = some s ∧ u'.username = jsToLower s := by
  unfold registerAfterValidation registerUploads registerCreate
  dsimp only
  repeat' split
  all_goals intro u' hu'
  all_goals first
    | exact Or.inl hu'
    | (rcases List.mem_append.mp hu' with h | h
       · exact Or.inl h
       · rw [List.mem_singleton.mp h]
         exact Or.inr ⟨_, by assumption, rfl⟩)

/-! ## Concrete fixtures used by counterexamples and witnesses -/

/-- A concrete environment: a deterministic hash, an upload service that
always succeeds, and deterministic token mints. -/
def demoEnv : Env :=
  { hash := fun s => s ++ "#h",
    upload := fun p => some ("cdn/" ++ p),
    genAccessToken := fun u => "at-" ++ u.username,
    genRefreshToken := fun u => "rt-" ++ u.username }

/-- A concrete stored user with an active refresh token. -/
def demoUser : StoredUser :=
  { id := 1, username := "ab1", email := "a@b.com", fullName := "A B",
    password := "pw123456#h", avatar := "cdn/av.png", coverImage := "",
    refreshToken := some "rt1" }

/-! ## Theorems -/

/-- C1: the claim says a refresh request presenting the refresh token that
is currently stored on the account gets a fresh token pair and a 200.  The
code's presence check (line 370) is inverted — `if (incomingRefreshToken)
throw 401` — so presenting the exactly-matching stored token "rt1" is
rejected with 401 "Unauthorized request" and the store is unchanged: no
rotation ever happens. -/
theorem refreshAccessToken_rejects_matching_token :
    refreshAccessToken [demoUser] (some "rt1") none =
      (.thrown ⟨401, "Unauthorized request"⟩, [demoUser]) := rfl

/-- C2: the claim says login is rejected with 400 exactly when NEITHER
username nor email is present.  The code (line 282) tests `!username ||
!email`, so a request carrying a username but no email — which the claim
says passes the presence check — is rejected with 400. -/
theorem loginUser_rejects_username_only :
    loginUser demoEnv [demoUser]
        { email := none, username := some "ab1", password := some "pw123456" } =
      (.thrown ⟨400, "username or email is required"⟩, [demoUser]) := rfl

/-- C7: the claim says registration without an uploaded avatar file is
rejected with 400.  When `req.files` is an object that merely lacks the
`avatar` key (for instance only a cover image was uploaded), the expression
`req.files?.avatar[0]?.path` (line 228) dereferences `undefined` and the
handler dies with a `TypeError` instead of throwing ApiError 400. -/
theorem registerUser_missing_avatar_crashes :
    registerUser demoEnv []
        { fullName := some "A B", email := some "a@b.com",
          username := some "ab1", password := some "pw123456" }
        (some { avatar := none, coverImage := some [{ path := "cover.png" }] }) =
      (.crashed "TypeError: Cannot read properties of undefined", []) := rfl

/-- C3: a refresh request presenting a token that differs from the refresh
token stored on an account of the store is rejected with 401, no new
tokens are issued, and the store (in particular every stored refresh
token) is unchanged.  (In this code the rejection happens already at the
inverted presence check of line 370, which fires for every presented
token.) -/
theorem refreshAccessToken_rejects_stale_token
    (db : UserDb) (cookieToken bodyToken : Option String) (t : String)
    (u : StoredUser)
    (hpres : jsOr cookieToken bodyToken = some t) (ht : t ≠ "")
    (hu : u ∈ db) (hstale : u.refreshToken ≠ some t) :
    refreshAccessToken db cookieToken bodyToken =
      (.thrown ⟨401, "Unauthorized request"⟩, db) := by
  have htt : truthy (jsOr cookieToken bodyToken) = true := by
    rw [hpres]; simp [truthy, ht]
  simp [refreshAccessToken, htt]

/-- Witness for C3 at a concrete store and token. -/
theorem refreshAccessToken_rejects_stale_token_witness :
    refreshAccessToken [demoUser] (some "bad") none =
      (.thrown ⟨401, "Unauthorized request"⟩, [demoUser]) :=
  refreshAccessToken_rejects_stale_token [demoUser] (some "bad") none "bad"
    demoUser rfl (by decide) (by simp) (by simp [demoUser])

/-- C5: a registration request with a blank required field — a present
field whose trimmed value is empty — is rejected with 400 "All fields are
required" and the store is unchanged: no account record is created. -/
theorem registerUser_rejects_blank_field
    (env : Env) (db : UserDb) (body : RegisterBody)
    (files : Option RegisterFiles) (s : String)
    (hs : jsTrim s = "")
    (hf : some s ∈ [body.fullName, body.email, body.username, body.password]) :
    registerUser env db body files =
      (.thrown ⟨400, "All fields are required"⟩, db) := by
  have hb : hasBlankField body = true := by
    rw [hasBlankField, List.any_eq_true]
    exact ⟨some s, hf, by simp [isBlank, hs]⟩
  simp [registerUser, hb]

/-- Witness for C5: a blank (whitespace-only) password. -/
theorem registerUser_rejects_blank_field_witness :
    registerUser demoEnv []
        { fullName := some "A B", email := some "a@b.com",
          username := some "ab1", password := some " " } none =
      (.thrown ⟨400, "All fields are required"⟩, []) :=
  registerUser_rejects_blank_field demoEnv []
    { fullName := some "A B", email := some "a@b.com",
      username := some "ab1", password := some " " } none " "
    (by decide) (by simp)

/-- C8: after a logout by the authenticated user, that user's stored
refresh token is cleared in the resulting store, and the response has
status 200 and clears both the accessToken and the refreshToken cookie. -/
theorem logoutUser_clears_token_and_cookies
    (db : UserDb) (userId : Nat) :
    (logoutUser db userId).1 =
      .success
        { status := 200, setCookies := [],
          clearedCookies := ["accessToken", "refreshToken"],
          body := mkApiResponse 200 (.obj []) "User logged Out" } ∧
    ∀ u ∈ (logoutUser db userId).2, u.id = userId → u.refreshToken = none := by
  constructor
  · rfl
  · intro u hu hid
    simp only [logoutUser] at hu
    rcases List.mem_map.mp hu with ⟨w, _, hmap⟩
    by_cases h : (w.id == userId) = true
    · rw [if_pos h] at hmap
      rw [← hmap]
    · rw [if_neg h] at hmap
      rw [← hmap] at hid
      exact absurd (beq_iff_eq.mpr hid) h

/-- Witness for C8: the logged-out demo user's stored token is cleared. -/
theorem logoutUser_clears_token_and_cookies_witness :
    ({ demoUser with refreshToken := none } : StoredUser).refreshToken = none :=
  (logoutUser_clears_token_and_cookies [demoUser] 1).2
    { demoUser with refreshToken := none } (by simp [logoutUser, demoUser]) rfl

/-- C4: whatever the request, the data object of a successful
`registerUser` response — the created account representation, re-fetched
with `.select("-password -refreshToken")` — contains neither a `password`
nor a `refreshToken` field. -/
theorem registerUser_response_omits_credentials
    (env : Env) (db : UserDb) (body : RegisterBody)
    (files : Option RegisterFiles) :
    "password" ∉ responseDataKeys (registerUser env db body files).1 ∧
    "refreshToken" ∉ responseDataKeys (registerUser env db body files).1 := by
  unfold registerUser registerAfterValidation registerUploads registerCreate
  dsimp only
  repeat' split
  all_goals simp only [responseDataKeys, Json.keys, mkApiResponse]
  all_goals first
    | exact ⟨List.not_mem_nil _, List.not_mem_nil _⟩
    | exact ⟨not_mem_selectFields _ _ _ (by simp),
             not_mem_selectFields _ _ _ (by simp)⟩

/-- Witness for C4 at a concrete successful registration. -/
theorem registerUser_response_omits_credentials_witness :
    "password" ∉ responseDataKeys (registerUser demoEnv []
      { fullName := some "A B", email := some "a@b.com",
        username := some "ab1", password := some "pw123456" }
      (some { avatar := some [{ path := "av.png" }], coverImage := none })).1 ∧
    "refreshToken" ∉ responseDataKeys (registerUser demoEnv []
      { fullName := some "A B", email := some "a@b.com",
        username := some "ab1", password := some "pw123456" }
      (some { avatar := some [{ path := "av.png" }], coverImage := none })).1 :=
  registerUser_response_omits_credentials demoEnv []
    { fullName := some "A B", email := some "a@b.com",
      username := some "ab1", password := some "pw123456" }
    (some { avatar := some [{ path := "av.png" }], coverImage := none })

/-- C9: the 400 "All fields are required" rejection of `registerUser` is
raised exactly when some provided field trims to the empty string; a field
that is absent from the body does not trip the check, and when no provided
field is blank the handler proceeds to the duplicate lookup and the rest
of the pipeline. -/
theorem registerUser_blank_check_only_sees_present_fields
    (env : Env) (db : UserDb) (body : RegisterBody)
    (files : Option RegisterFiles) :
    ((registerUser env db body files).1 =
        .thrown ⟨400, "All fields are required"⟩ ↔
      hasBlankField body = true) ∧
    (hasBlankField body = true ↔
      ∃ s : String,
        some s ∈ [body.fullName, body.email, body.username, body.password] ∧
        jsTrim s = "") ∧
    (hasBlankField body = false →
      registerUser env db body files =
        registerAfterValidation env db body files) := by
  refine ⟨⟨fun h => ?_, fun hb => by simp [registerUser, hb]⟩, ?_,
    fun hb => by simp [registerUser, hb]⟩
  · by_contra hbc
    have hb' : hasBlankField body = false := by
      cases hhb : hasBlankField body
      · rfl
      · exact absurd hhb hbc
    rw [registerUser, if_neg (by simp [hb'])] at h
    exact registerAfterValidation_ne_blank_error env db body files h
  · rw [hasBlankField, List.any_eq_true]
    constructor
    · rintro ⟨f, hf, hbl⟩
      cases f with
      | none => simp [isBlank] at hbl
      | some s => exact ⟨s, hf, by simpa [isBlank] using hbl⟩
    · rintro ⟨s, hs, htrim⟩
      exact ⟨some s, hs, by simp [isBlank, htrim]⟩

/-- Witness for C9: a body whose username is absent (and whose other
fields are non-blank) passes the validation and reaches the duplicate
lookup. -/
theorem registerUser_blank_check_only_sees_present_fields_witness :
    registerUser demoEnv []
        { fullName := some "A B", email := some "a@b.com",
          username := none, password := some "pw123456" } none =
      registerAfterValidation demoEnv []
        { fullName := some "A B", email := some "a@b.com",
          username := none, password := some "pw123456" } none :=
  (registerUser_blank_check_only_sees_present_fields demoEnv []
    { fullName := some "A B", email := some "a@b.com",
      username := none, password := some "pw123456" } none).2.2 (by decide)

/-- C6 counterexample: the claim predicts 409 for every request whose
username already exists, but a request that also carries a blank field is
rejected by the earlier non-blank validation with 400, not 409 — here the
username "ab1" equals the stored account's username, yet the answer is
400 "All fields are required". -/
theorem registerUser_duplicate_not_conflict_when_blank :
    (∃ u ∈ ([demoUser] : UserDb),
      some u.username =
        ({ fullName := some " ", email := some "x@y.z",
           username := some "ab1", password := some "pw123456" } :
          RegisterBody).username) ∧
    (registerUser demoEnv [demoUser]
        { fullName := some " ", email := some "x@y.z",
          username := some "ab1", password := some "pw123456" } none).1 ≠
      .thrown ⟨409, "User with email or username already exists"⟩ := by
  constructor
  · exact ⟨demoUser, by simp, rfl⟩
  · intro h
    rw [show (registerUser demoEnv [demoUser]
        { fullName := some " ", email := some "x@y.z",
          username := some "ab1", password := some "pw123456" } none).1 =
        .thrown ⟨400, "All fields are required"⟩ from rfl] at h
    simp at h

/-- C6 as amended: a registration request that passes the non-blank
validation and whose username or email equals that of a stored account is
rejected with 409 and the store is unchanged — no second record is
created. -/
theorem registerUser_rejects_duplicate
    (env : Env) (db : UserDb) (body : RegisterBody)
    (files : Option RegisterFiles) (u : StoredUser)
    (hnb : hasBlankField body = false) (hu : u ∈ db)
    (hdup : body.username = some u.username ∨ body.email = some u.email) :
    registerUser env db body files =
      (.thrown ⟨409, "User with email or username already exists"⟩, db) := by
  have hsome : (findOneByUsernameOrEmail db body.username body.email).isSome := by
    rw [findOneByUsernameOrEmail, List.find?_isSome]
    refine ⟨u, hu, ?_⟩
    rcases hdup with h | h <;> simp [h]
  obtain ⟨w, hw⟩ := Option.isSome_iff_exists.mp hsome
  rw [registerUser, if_neg (by simp [hnb])]
  unfold registerAfterValidation
  rw [hw]

/-- Witness for C6 as amended: registering the stored username again,
with no blank field, answers 409 and leaves the store as it was. -/
theorem registerUser_rejects_duplicate_witness :
    registerUser demoEnv [demoUser]
        { fullName := some "A B", email := some "other@x.y",
          username := some "ab1", password := some "pw123456" } none =
      (.thrown ⟨409, "User with email or username already exists"⟩,
        [demoUser]) :=
  registerUser_rejects_duplicate demoEnv [demoUser]
    { fullName := some "A B", email := some "other@x.y",
      username := some "ab1", password := some "pw123456" } none demoUser
    (by decide) (by simp) (Or.inl rfl)

/-- C10: the duplicate lookup matches the username exactly as submitted
while records are created with the lowercased username, so a submitted
username that differs from a stored (lowercase) username only in letter
case does not raise 409; the handler proceeds, and any record it creates
carries the lowercased username. -/
theorem registerUser_duplicate_check_is_case_sensitive
    (env : Env) (db : UserDb) (files : Option RegisterFiles)
    (v e fn pw : String)
    (hstored : ∃ u ∈ db, u.username = jsToLower v)
    (hcase : jsToLower v ≠ v)
    (hnomatch : ∀ u ∈ db, u.username ≠ v ∧ u.email ≠ e) :
    (registerUser env db
        { fullName := some fn, email := some e, username := some v,
          password := some pw } files).1 ≠
      .thrown ⟨409, "User with email or username already exists"⟩ ∧
    ∀ u' ∈ (registerUser env db
        { fullName := some fn, email := some e, username := some v,
          password := some pw } files).2,
      u' ∈ db ∨ u'.username = jsToLower v := by
  have hfind : findOneByUsernameOrEmail db (some v) (some e) = none := by
    rw [findOneByUsernameOrEmail, List.find?_eq_none]
    intro u hu
    have hn := hnomatch u hu
    simp only [Bool.or_eq_true, beq_iff_eq, Option.some.injEq, not_or]
    exact ⟨fun h => hn.1 h.symm, fun h => hn.2 h.symm⟩
  by_cases hb : hasBlankField
      { fullName := some fn, email := some e, username := some v,
        password := some pw } = true
  · rw [registerUser, if_pos hb]
    exact ⟨by simp, fun u' hu' => Or.inl hu'⟩
  · have hb' : hasBlankField
        { fullName := some fn, email := some e, username := some v,
          password := some pw } = false := by
      cases hhb : hasBlankField
          { fullName := some fn, email := some e, username := some v,
            password := some pw }
      · rfl
      · exact absurd hhb hb
    rw [registerUser, if_neg (by simp [hb'])]
    constructor
    · exact registerAfterValidation_ne_conflict_of_find_none env db _ files hfind
    · intro u' hu'
      rcases registerAfterValidation_new_users_lowercased env db _ files u' hu'
        with h | ⟨s, hs, hlow⟩
      · exact Or.inl h
      · rcases Option.some.injEq _ _ ▸ hs with rfl
        exact Or.inr hlow

/-- Witness for C10: submitting "Ab1" while "ab1" is stored passes the
duplicate check; the record the handler then creates stores "ab1". -/
theorem registerUser_duplicate_check_is_case_sensitive_witness :
    (registerUser demoEnv [demoUser]
        { fullName := some "A B", email := some "other@x.y",
          username := some "Ab1", password := some "pw123456" }
        (some { avatar := some [{ path := "av.png" }], coverImage := none })).1 ≠
      .thrown ⟨409, "User with email or username already exists"⟩ ∧
    ∀ u' ∈ (registerUser demoEnv [demoUser]
        { fullName := some "A B", email := some "other@x.y",
          username := some "Ab1", password := some "pw123456" }
        (some { avatar := some [{ path := "av.png" }], coverImage := none })).2,
      u' ∈ ([demoUser] : UserDb) ∨ u'.username = jsToLower "Ab1" :=
  registerUser_duplicate_check_is_case_sensitive demoEnv [demoUser]
    (some { avatar := some [{ path := "av.png" }], coverImage := none })
    "Ab1" "other@x.y" "A B" "pw123456"
    ⟨demoUser, by simp, by decide⟩ (by decide)
    (by intro u hu; rw [List.mem_singleton.mp hu]; exact ⟨by decide, by decide⟩)

end VideoStream
